/-
Verification of the rain-warning notification rule
(`i1_met_nowcast_alarm.py`, class `RainWarning`).

The Python source is shallowly embedded below: the evaluation routine
`check_rain_forecast` becomes a pure function over explicit inputs
(configuration, cooldown state, trigger context, forecast fetch outcome,
sensor-state reader, notification sender, current instant), and the host
side effects it performs (successful `call_service` calls, the error log
line of the outer `except` handler) become explicit outputs.  Instants are
modelled as epoch seconds (`Int`); precipitation amounts as `ℚ`.
-/

import Mathlib

set_option maxRecDepth 4000

/-! ## Datetime parsing

`check_rain_forecast` parses each forecast point with
`datetime.fromisoformat(forecast["datetime"].replace("Z", "+00:00"))`
and compares the result with the timezone-aware `datetime.now(timezone.utc)`.
We model `str.replace("Z", "+00:00")` character by character (the pattern is
a single character, so Python's replace-all is a per-character map), and
`datetime.fromisoformat` on the offset-aware shape
`YYYY-MM-DDTHH:MM:SS±HH:MM`, returning the instant as epoch seconds.
Strings outside this shape yield `none`, standing for the abort of the
`try` block in the source: a malformed string raises `ValueError` at the
parse and a naive (offset-free) result raises `TypeError` at the very next
comparison, and both are swallowed identically by the routine's outer
`except` handler. -/

/-- Python `str.replace("Z", "+00:00")` on the character list: every `'Z'` becomes
the five characters `+00:00`. -/
def replaceZchars : List Char → List Char
  | [] => []
  | c :: rest =>
    if c = 'Z' then '+' :: '0' :: '0' :: ':' :: '0' :: '0' :: replaceZchars rest
    else c :: replaceZchars rest

/-- The call `s.replace("Z", "+00:00")` from line 125 of the source. -/
def replaceZ (s : String) : String := ⟨replaceZchars s.data⟩

/-- Numeric value of a decimal digit character, `none` otherwise. -/
def digitVal (c : Char) : Option Nat :=
  if '0' ≤ c ∧ c ≤ '9' then some (c.toNat - 48) else none

/-- Two-digit decimal number. -/
def num2 (a b : Char) : Option Nat := do
  let x ← digitVal a
  let y ← digitVal b
  pure (10 * x + y)

/-- Four-digit decimal number. -/
def num4 (a b c d : Char) : Option Nat := do
  let x ← num2 a b
  let y ← num2 c d
  pure (100 * x + y)

/-- Gregorian leap-year test, as in `datetime`. -/
def isLeap (y : Nat) : Bool := y % 4 = 0 ∧ (y % 100 ≠ 0 ∨ y % 400 = 0)

/-- Days in a month, used to validate the day field as `fromisoformat` does. -/
def daysInMonth (y m : Nat) : Nat :=
  if m = 2 then (if isLeap y then 29 else 28)
  else if m = 4 ∨ m = 6 ∨ m = 9 ∨ m = 11 then 30
  else 31

/-- Days from 1970-01-01 to year `y`, month `m`, day `d` (proleptic
Gregorian, `1 ≤ y`); the standard civil-calendar formula. -/
def daysFromCivil (y m d : Nat) : Int :=
  let yp : Nat := y - (if m ≤ 2 then 1 else 0)
  let era : Nat := yp / 400
  let yoe : Nat := yp % 400
  let mp : Nat := if 2 < m then m - 3 else m + 9
  let doy : Nat := (153 * mp + 2) / 5 + d - 1
  let doe : Nat := yoe * 365 + yoe / 4 - yoe / 100 + doy
  (era * 146097 + doe : Int) - 719468

/-- UTC-offset suffix `±HH:MM`, in seconds. -/
def parseOffset : List Char → Option Int
  | [sg, h1, h2, ':', m1, m2] => do
    let h ← num2 h1 h2
    let m ← num2 m1 m2
    if h ≤ 23 ∧ m ≤ 59 then
      match sg with
      | '+' => pure (h * 3600 + m * 60 : Int)
      | '-' => pure (-(h * 3600 + m * 60 : Int))
      | _ => none
    else none
  | _ => none

/-- Model of `datetime.fromisoformat` on `YYYY-MM-DDTHH:MM:SS±HH:MM`, as epoch
seconds; `none` for every other shape (see the section comment). -/
def fromisoformatChars : List Char → Option Int
  | y1 :: y2 :: y3 :: y4 :: '-' :: o1 :: o2 :: '-' :: d1 :: d2 :: 'T' ::
      h1 :: h2 :: ':' :: mi1 :: mi2 :: ':' :: s1 :: s2 :: rest => do
    let y ← num4 y1 y2 y3 y4
    let mo ← num2 o1 o2
    let d ← num2 d1 d2
    let h ← num2 h1 h2
    let mi ← num2 mi1 mi2
    let s ← num2 s1 s2
    let off ← parseOffset rest
    if 1 ≤ y ∧ 1 ≤ mo ∧ mo ≤ 12 ∧ 1 ≤ d ∧ d ≤ daysInMonth y mo ∧
        h ≤ 23 ∧ mi ≤ 59 ∧ s ≤ 59 then
      pure (daysFromCivil y mo d * 86400 + (h * 3600 + mi * 60 + s : Nat) - off)
    else none
  | _ => none

/-- The source's parse of a forecast timestamp (line 125):
`datetime.fromisoformat(s.replace("Z", "+00:00"))`. -/
def parseDt (s : String) : Option Int := fromisoformatChars (replaceZ s).data

/-! ## Data model

A forecast point is a decoded JSON object; the routine reads its
`"datetime"` and `"precipitation"` keys with `dict.get`, so both are
optional.  A `Person` is a decoded configuration object read with
`person.get("notify")`. -/

/-- One element of the decoded `forecast_json` array. -/
structure ForecastPoint where
  datetime : Option String
  precipitation : Option ℚ
deriving DecidableEq

/-- Python truthiness test `not forecast.get("datetime")` (line 122):
the key is absent or holds the empty string. -/
def dtFalsy (p : ForecastPoint) : Bool :=
  match p.datetime with
  | none => true
  | some s => s == ""

/-- The read `forecast.get("precipitation", 0)` (line 130): a missing amount is 0. -/
def precipVal (p : ForecastPoint) : ℚ := p.precipitation.getD 0

/-- One element of the `persons` configuration list. -/
structure Person where
  notify : Option String
deriving DecidableEq

/-- Python truthiness test `if notify_service:` (line 167). -/
def notifyFalsy (p : Person) : Bool :=
  match p.notify with
  | none => true
  | some s => s == ""

/-- The three configuration values read in `initialize` (lines 20-22):
`args.get("nowcast_sensor")` (absent ↦ `none`),
`args.get("door_window_sensors", [])`, `args.get("persons", [])`. -/
structure Config where
  nowcast_sensor : Option String
  door_window_sensors : List String
  persons : List Person
deriving DecidableEq

/-- Python truthiness of `entity` in `if entity and new != "on"`
(line 106): the trigger carries a non-empty entity id. -/
def entityTruthy (entity : Option String) : Bool :=
  match entity with
  | none => false
  | some s => !(s == "")

/-- Outcome of `get_state(self.nowcast_sensor, attribute="forecast_json")`
followed by `json.loads` (lines 110-114).  The JSON decoder is the Python
standard library, outside this repository, so we model its outcome:
`missing` is a falsy attribute value (absent or empty, line 111),
`malformed` is a `json.loads` exception carrying its message, and
`parsed` is the decoded array. -/
inductive FetchResult where
  | missing : FetchResult
  | malformed (msg : String) : FetchResult
  | parsed (pts : List ForecastPoint) : FetchResult
deriving DecidableEq

deriving instance DecidableEq for Except

/-! ## The rain-window scan (lines 118-133) -/

/-- The `for forecast in forecast_data` loop of lines 121-133, returning
the final `(rain_found, rain_minutes)` pair, or the message of a raised
exception.  Points with a falsy datetime are skipped (`continue`); the
loop breaks as soon as a parsed timestamp exceeds `threshold`; the first
remaining point with timestamp ≥ `now` and positive precipitation sets
`rain_found`/`rain_minutes` and breaks.  `rain_minutes` is
`int((forecast_time - now).total_seconds() / 60)`; the branch is guarded
by `now ≤ t`, so the difference is non-negative and integer division by
60 is exactly Python's float-truncating `int(... / 60)`. -/
def scanForecast (now threshold : Int) : List ForecastPoint → Except String (Bool × Int)
  | [] => .ok (false, 0)
  | p :: rest =>
    if dtFalsy p then scanForecast now threshold rest
    else
      match parseDt (p.datetime.getD "") with
      | none => .error ("Invalid isoformat string: " ++ p.datetime.getD "")
      | some t =>
        if threshold < t then .ok (false, 0)
        else if now ≤ t ∧ 0 < precipVal p then .ok (true, (t - now) / 60)
        else scanForecast now threshold rest

/-! ## Doors, cooldown, dispatch -/

/-- Lines 139-145: `doors_open` is true iff some configured sensor's
current state is the string `"on"`. -/
def doorsOpen (getState : String → Option String) (sensors : List String) : Bool :=
  sensors.any (fun s => getState s == some "on")

/-- The cooldown gate of lines 151-152 with
`self.notification_cooldown = 180`: pass when no notification was ever
sent or at least 180 seconds have elapsed. -/
def cooldownPassed (last : Option Int) (now : Int) : Bool :=
  match last with
  | none => true
  | some l => 180 ≤ now - l

/-- The message built at line 164 from `rain_minutes`. -/
def notifyMessage (rain_minutes : Int) : String :=
  "⚠️ Rain Warning: Rain expected in " ++ toString rain_minutes ++
    " minutes and doors are open!"

/-- The per-recipient loop of lines 165-168.  `send svc` is the host's
`call_service("notify/" + svc, ...)`, which either succeeds or raises
with a message.  Returns the list of `(service, message)` pairs
successfully delivered, in order, and the exception message if a send
raised (later recipients are then not attempted; earlier sends stand). -/
def dispatchLoop (send : String → Except String Unit) (msg : String) :
    List Person → List (String × String) × Option String
  | [] => ([], none)
  | p :: rest =>
    if notifyFalsy p then dispatchLoop send msg rest
    else
      let svc := p.notify.getD ""
      match send svc with
      | .error e => ([], some e)
      | .ok _ =>
        let out := dispatchLoop send msg rest
        (("notify/" ++ svc, msg) :: out.1, out.2)

/-! ## The evaluation routine `check_rain_forecast` (lines 102-174) -/

/-- Result of the `try` body of `check_rain_forecast`: either a normal
return carrying the final `last_notification_time` and the successful
sends, or a raised exception (its message, plus the sends that had
already happened when it was raised). -/
inductive BodyResult where
  | ok (last : Option Int) (sent : List (String × String)) : BodyResult
  | exn (msg : String) (sent : List (String × String)) : BodyResult
deriving DecidableEq

/-- The `try` body of `check_rain_forecast`, lines 104-171.  Inputs:
configuration, the cooldown field `self.last_notification_time`, the
callback arguments `entity`/`new`, the forecast fetch outcome, the host
state reader `get_state`, the notification sender, and the instant
`datetime.now(timezone.utc)` (epoch seconds). -/
def check_rain_body (cfg : Config) (last : Option Int)
    (entity new : Option String) (fetch : FetchResult)
    (getState : String → Option String) (send : String → Except String Unit)
    (now : Int) : BodyResult :=
  -- line 106: if entity and new != "on": return
  if entityTruthy entity = true ∧ new ≠ some "on" then .ok last []
  else
    match fetch with
    | .missing => .ok last []               -- line 111: if not nowcast_state
    | .malformed msg => .exn msg []         -- line 114: json.loads raised
    | .parsed forecast_data =>
      -- line 116: threshold_time = now + timedelta(minutes=30)
      match scanForecast now (now + 30 * 60) forecast_data with
      | .error e => .exn e []
      | .ok (rain_found, rain_minutes) =>
        if rain_found = false then .ok last []     -- line 135
        else if doorsOpen getState cfg.door_window_sensors = false then .ok last []
        else if cooldownPassed last now = true then
          match dispatchLoop send (notifyMessage rain_minutes) cfg.persons with
          | (sent, none) => .ok (some now) sent   -- line 170 runs
          | (sent, some e) => .exn e sent         -- a send raised: line 170 skipped
        else .ok last []

/-- Observable outcome of one call of `check_rain_forecast`: the cooldown
field after the call, the notifications successfully delivered, and the
error line logged by the `except` handler of lines 173-174 (if it ran). -/
structure RunResult where
  last : Option Int
  sent : List (String × String)
  errorLogged : Option String
deriving DecidableEq

/-- The routine `check_rain_forecast` (lines 102-174): the `try` body wrapped in the
`except Exception` handler, which logs
`"Error in check_rain_forecast: " + e` and returns normally, leaving
`self.last_notification_time` at its pre-call value (the assignment at
line 170 only runs after the whole dispatch loop succeeded). -/
def check_rain_forecast (cfg : Config) (last : Option Int)
    (entity new : Option String) (fetch : FetchResult)
    (getState : String → Option String) (send : String → Except String Unit)
    (now : Int) : RunResult :=
  match check_rain_body cfg last entity new fetch getState send now with
  | .ok l sent => ⟨l, sent, none⟩
  | .exn msg sent => ⟨last, sent, some ("Error in check_rain_forecast: " ++ msg)⟩

/-! ## `initialize` (lines 17-42) -/

/-- Observable outcome of `initialize`: the error lines logged, the
sensors a state listener was registered for (line 39), and whether the
periodic timer was started (line 42). -/
structure InitResult where
  errors : List String
  listeners : List String
  timerStarted : Bool
deriving DecidableEq

/-- The validation test of line 25, `not all([...])`: some required
configuration value is Python-falsy. -/
def configMissing (cfg : Config) : Bool :=
  (match cfg.nowcast_sensor with | none => true | some s => s == "")
    || cfg.door_window_sensors.isEmpty || cfg.persons.isEmpty

/-- The method `initialize` (lines 17-42; renamed `initialize_app` here).  On a
failed validation it logs one error and returns before registering any
listener or timer; otherwise it registers one listener per door sensor
and starts the periodic timer. -/
def initialize_app (cfg : Config) : InitResult :=
  if configMissing cfg then
    ⟨["Error: Missing required configuration (nowcast_sensor, door_window_sensors, or persons)"],
      [], false⟩
  else ⟨[], cfg.door_window_sensors, true⟩

/-! ## Auxiliary notions used by the theorems -/

/-- A scan point the loop passes over without matching, breaking or
raising: its datetime is falsy (the `continue` of line 123), or it parses
to an instant that is within the threshold but fails the match test of
lines 129-130. -/
def pointPasses (now threshold : Int) (p : ForecastPoint) : Prop :=
  dtFalsy p = true ∨
    ∃ t, parseDt (p.datetime.getD "") = some t ∧ t ≤ threshold ∧
      ¬(now ≤ t ∧ 0 < precipVal p)

/-- The `(service, message)` pairs the dispatch loop delivers for a list
of persons when every attempted send succeeds: one per person with a
truthy `notify` value. -/
def successfulSends (msg : String) : List Person → List (String × String)
  | [] => []
  | p :: rest =>
    if notifyFalsy p then successfulSends msg rest
    else ("notify/" ++ p.notify.getD "", msg) :: successfulSends msg rest

/-- Every send a person list would request succeeds under `send`. -/
def allSendsOk (send : String → Except String Unit) (ps : List Person) : Prop :=
  ∀ p ∈ ps, notifyFalsy p = false → send (p.notify.getD "") = .ok ()

/-- The rational 1/2, written with explicit numerator and denominator so
that concrete scenarios reduce inside the kernel. -/
def half : ℚ := ⟨1, 2, by decide, Nat.coprime_one_left 2⟩

theorem half_eq : half = 1 / 2 := by
  rw [half, Rat.mk'_eq_divInt, Rat.divInt_eq_div]; norm_num

/-! ## Scan lemmas -/

theorem scan_pass_cons {now threshold : Int} {q : ForecastPoint}
    (l : List ForecastPoint) (h : pointPasses now threshold q) :
    scanForecast now threshold (q :: l) = scanForecast now threshold l := by
  rcases h with hd | ⟨t, hp, hle, hnot⟩
  · simp [scanForecast, hd]
  · by_cases hd : dtFalsy q
    · simp [scanForecast, hd]
    · simp only [scanForecast, hd, Bool.false_eq_true, if_false, hp,
        not_lt.mpr hle, if_neg hnot]

theorem scan_passes_append {now threshold : Int} {pre : List ForecastPoint}
    (l : List ForecastPoint) (h : ∀ q ∈ pre, pointPasses now threshold q) :
    scanForecast now threshold (pre ++ l) = scanForecast now threshold l := by
  induction pre with
  | nil => rfl
  | cons q qs ih =>
    rw [List.cons_append, scan_pass_cons _ (h q (by simp)),
      ih (fun r hr => h r (by simp [hr]))]


/-! ## C1: the rain-window scan -/

/-- Claim C1: the scan of lines 121-133 visits points in order: a point with
a falsy datetime is skipped; with every earlier point passed over, the
scan stops with no match at the first point whose timestamp strictly
exceeds `now + 30` minutes, and designates as the match the first point
with timestamp ≥ `now` and positive precipitation (a missing
precipitation amount counting as 0), yielding `rain_found = true` and
`rain_minutes = (t - now) / 60` — the floor of the minutes until the
match, since `now ≤ t` — regardless of every later point. -/
theorem scan_window_first_match (now : Int) (pre rest : List ForecastPoint)
    (p : ForecastPoint) (t : Int)
    (hpre : ∀ q ∈ pre, pointPasses now (now + 30 * 60) q) :
    (∀ q l, dtFalsy q = true →
        scanForecast now (now + 30 * 60) (q :: l) =
          scanForecast now (now + 30 * 60) l) ∧
    (dtFalsy p = false → parseDt (p.datetime.getD "") = some t →
      now + 30 * 60 < t →
        scanForecast now (now + 30 * 60) (pre ++ p :: rest) = .ok (false, 0)) ∧
    (dtFalsy p = false → parseDt (p.datetime.getD "") = some t →
      now ≤ t → t ≤ now + 30 * 60 → 0 < precipVal p →
        scanForecast now (now + 30 * 60) (pre ++ p :: rest) =
          .ok (true, (t - now) / 60)) ∧
    (∀ q : ForecastPoint, q.precipitation = none → precipVal q = 0) := by
  refine ⟨fun q l hq => by simp [scanForecast, hq], ?_, ?_,
    fun q hq => by simp [precipVal, hq]⟩
  · intro hd hp hlt
    rw [scan_passes_append _ hpre]
    simp only [scanForecast, hd, Bool.false_eq_true, if_false, hp, if_pos hlt]
  · intro hd hp hnow hth hpr
    rw [scan_passes_append _ hpre]
    simp only [scanForecast, hd, Bool.false_eq_true, if_false, hp,
      if_neg (not_lt.mpr hth), if_pos (And.intro hnow hpr)]

/-- Witness for C1: with one skipped point ahead of it, the point five
minutes ahead with precipitation 1/2 is the designated match. -/
theorem scan_window_first_match_witness :
    scanForecast 1735732800 (1735732800 + 30 * 60)
        [⟨none, some 1⟩, ⟨some "2025-01-01T12:05:00Z", some half⟩] =
      .ok (true, 5) := by
  have h := (scan_window_first_match 1735732800 [⟨none, some 1⟩] []
      ⟨some "2025-01-01T12:05:00Z", some half⟩ 1735733100
      (fun q hq => by
        simp only [List.mem_singleton] at hq
        subst hq
        exact Or.inl rfl)).2.2.1
      (by decide) (by decide) (by decide) (by decide) (by decide)
  simpa using h

/-! ## Dispatch and cooldown lemmas -/

theorem dispatch_all_ok (send : String → Except String Unit) (msg : String)
    (ps : List Person) (h : allSendsOk send ps) :
    dispatchLoop send msg ps = (successfulSends msg ps, none) := by
  induction ps with
  | nil => rfl
  | cons p rest ih =>
    have ihr := ih (fun q hq hq2 => h q (List.mem_cons_of_mem p hq) hq2)
    by_cases hf : notifyFalsy p
    · simp [dispatchLoop, successfulSends, hf, ihr]
    · have hs := h p (List.mem_cons_self p rest) (by simpa using hf)
      simp [dispatchLoop, successfulSends, hf, hs, ihr]

theorem check_last_cases (cfg : Config) (last : Option Int)
    (entity new : Option String) (fetch : FetchResult)
    (getState : String → Option String) (send : String → Except String Unit)
    (now : Int) :
    (check_rain_forecast cfg last entity new fetch getState send now).last = last ∨
    ((check_rain_forecast cfg last entity new fetch getState send now).last = some now ∧
      (check_rain_forecast cfg last entity new fetch getState send now).errorLogged = none) := by
  unfold check_rain_forecast
  rcases hb : check_rain_body cfg last entity new fetch getState send now with ⟨l, s⟩ | ⟨m, s⟩
  · have hl : l = last ∨ l = some now := by
      unfold check_rain_body at hb
      repeat' split at hb
      all_goals cases hb
      all_goals simp
    rcases hl with h | h <;> simp [h]
  · left; rfl

/-- When the evaluation is not early-exited, the forecast parsed, rain
found with `rain_minutes = m`, and a door open, `check_rain_forecast`
reduces to the cooldown gate followed by the dispatch loop. -/
theorem check_qualifying_eq (cfg : Config) (last : Option Int)
    (entity new : Option String) (getState : String → Option String)
    (send : String → Except String Unit) (pts : List ForecastPoint) (m now : Int)
    (h1 : ¬(entityTruthy entity = true ∧ new ≠ some "on"))
    (h3 : scanForecast now (now + 30 * 60) pts = .ok (true, m))
    (h4 : doorsOpen getState cfg.door_window_sensors = true) :
    check_rain_forecast cfg last entity new (.parsed pts) getState send now =
      if cooldownPassed last now = true then
        match dispatchLoop send (notifyMessage m) cfg.persons with
        | (sent, none) => ⟨some now, sent, none⟩
        | (sent, some e) => ⟨last, sent, some ("Error in check_rain_forecast: " ++ e)⟩
      else ⟨last, [], none⟩ := by
  unfold check_rain_forecast check_rain_body
  rw [if_neg h1]
  simp only [h3, h4]
  by_cases hc : cooldownPassed last now = true
  · rw [if_pos hc, if_pos hc]
    rcases hd : dispatchLoop send (notifyMessage m) cfg.persons with ⟨sent, err⟩
    cases err <;> simp
  · rw [if_neg hc, if_neg hc]; simp

/-! ## C2: the cooldown gate -/

/-- Concrete configuration used by the closed scenarios below. -/
def cfgW : Config :=
  ⟨some "sensor.nowcast", ["binary_sensor.door"], [⟨some "phone"⟩]⟩

/-- Concrete forecast used by the closed scenarios below: one point five
minutes after 2025-01-01T12:00:00Z with precipitation 1/2. -/
def ptsW : List ForecastPoint := [⟨some "2025-01-01T12:05:00Z", some half⟩]

/-- Claim C2: in a qualifying evaluation (not early-exited, forecast parsed,
rain found, a door open): (1) under an active cooldown (fewer than 180
seconds since the last notification) nothing is sent and the cooldown
field is unchanged; (2) whenever the gate passes (no previous
notification, or one at least 180 seconds old) and the sends succeed, the
dispatch happens and the cooldown field becomes the evaluation instant
`now`; (3) the gate passes exactly when ≥ 180 seconds have elapsed, so an
evaluation that much later dispatches again; (4) in every evaluation
whatsoever the cooldown field is either untouched or set to `now` by a
completed dispatch — no other step mutates it. -/
theorem cooldown_gate_behavior (cfg : Config) (entity new : Option String)
    (getState : String → Option String) (send : String → Except String Unit)
    (pts : List ForecastPoint) (m now : Int)
    (h1 : ¬(entityTruthy entity = true ∧ new ≠ some "on"))
    (h3 : scanForecast now (now + 30 * 60) pts = .ok (true, m))
    (h4 : doorsOpen getState cfg.door_window_sensors = true) :
    (∀ L, now - L < 180 →
        check_rain_forecast cfg (some L) entity new (.parsed pts) getState send now =
          ⟨some L, [], none⟩) ∧
    (∀ last, cooldownPassed last now = true → allSendsOk send cfg.persons →
        check_rain_forecast cfg last entity new (.parsed pts) getState send now =
          ⟨some now, successfulSends (notifyMessage m) cfg.persons, none⟩) ∧
    (∀ L, 180 ≤ now - L → cooldownPassed (some L) now = true) ∧
    (∀ cfg' last' e' n' f' gs' sd' now',
        (check_rain_forecast cfg' last' e' n' f' gs' sd' now').last = last' ∨
        ((check_rain_forecast cfg' last' e' n' f' gs' sd' now').last = some now' ∧
          (check_rain_forecast cfg' last' e' n' f' gs' sd' now').errorLogged = none)) := by
  refine ⟨?_, ?_, ?_,
    fun cfg' last' e' n' f' gs' sd' now' => check_last_cases cfg' last' e' n' f' gs' sd' now'⟩
  · intro L hL
    rw [check_qualifying_eq cfg (some L) entity new getState send pts m now h1 h3 h4]
    have hc : cooldownPassed (some L) now = false := by
      simp only [cooldownPassed, decide_eq_false_iff_not]
      omega
    rw [hc]; simp
  · intro last hc hall
    rw [check_qualifying_eq cfg last entity new getState send pts m now h1 h3 h4,
      if_pos hc, dispatch_all_ok send _ _ hall]
  · intro L hL
    simp only [cooldownPassed, decide_eq_true_eq]
    omega

/-- Witness for C2: an evaluation 100 seconds after the last notification
is suppressed; one 200 seconds after it dispatches and updates the
cooldown field to the evaluation instant. -/
theorem cooldown_gate_behavior_witness :
    check_rain_forecast cfgW (some 1735732700) none none (.parsed ptsW)
        (fun _ => some "on") (fun _ => .ok ()) 1735732800 =
      ⟨some 1735732700, [], none⟩ ∧
    check_rain_forecast cfgW (some 1735732600) none none (.parsed ptsW)
        (fun _ => some "on") (fun _ => .ok ()) 1735732800 =
      ⟨some 1735732800, [("notify/phone", notifyMessage 5)], none⟩ := by
  have h := cooldown_gate_behavior cfgW none none (fun _ => some "on")
    (fun _ => .ok ()) ptsW 5 1735732800
    (by simp [entityTruthy]) (by decide) (by decide)
  exact ⟨h.1 1735732700 (by decide),
    h.2.1 (some 1735732600) (by decide) (fun p hp hf => rfl)⟩

/-! ## C3: no qualifying rain point, no notification -/

theorem scan_no_match (now : Int) (pts : List ForecastPoint)
    (h : ∀ p ∈ pts, ∀ t, parseDt (p.datetime.getD "") = some t →
        ¬(now ≤ t ∧ t ≤ now + 30 * 60 ∧ 0 < precipVal p)) :
    scanForecast now (now + 30 * 60) pts = .ok (false, 0) ∨
      ∃ e, scanForecast now (now + 30 * 60) pts = .error e := by
  induction pts with
  | nil => exact Or.inl rfl
  | cons p rest ih =>
    have ihr := ih (fun q hq => h q (List.mem_cons_of_mem p hq))
    by_cases hd : dtFalsy p
    · rw [show scanForecast now (now + 30 * 60) (p :: rest) =
        scanForecast now (now + 30 * 60) rest from by simp [scanForecast, hd]]
      exact ihr
    · cases hp : parseDt (p.datetime.getD "") with
      | none =>
        exact Or.inr ⟨"Invalid isoformat string: " ++ p.datetime.getD "", by
          simp only [scanForecast, hd, Bool.false_eq_true, if_false, hp]⟩
      | some t =>
        by_cases hb : now + 30 * 60 < t
        · exact Or.inl (by
            simp only [scanForecast, hd, Bool.false_eq_true, if_false, hp, if_pos hb])
        · have hm : ¬(now ≤ t ∧ 0 < precipVal p) := by
            rintro ⟨ha, hc⟩
            exact h p (List.mem_cons_self p rest) t hp ⟨ha, not_lt.mp hb, hc⟩
          rw [show scanForecast now (now + 30 * 60) (p :: rest) =
            scanForecast now (now + 30 * 60) rest from by
              simp only [scanForecast, hd, Bool.false_eq_true, if_false, hp,
                if_neg hb, if_neg hm]]
          exact ihr

/-- Claim C3: if no forecast point parses to an instant in `[now, now + 30
minutes]` with positive precipitation, the evaluation delivers no
notification and leaves the cooldown field unchanged — in particular for
a forecast whose only positive-precipitation point lies 35 minutes
ahead. -/
theorem no_rain_no_notification (cfg : Config) (last : Option Int)
    (entity new : Option String) (getState : String → Option String)
    (send : String → Except String Unit) (pts : List ForecastPoint) (now : Int)
    (h : ∀ p ∈ pts, ∀ t, parseDt (p.datetime.getD "") = some t →
        ¬(now ≤ t ∧ t ≤ now + 30 * 60 ∧ 0 < precipVal p)) :
    (check_rain_forecast cfg last entity new (.parsed pts) getState send now).sent = [] ∧
    (check_rain_forecast cfg last entity new (.parsed pts) getState send now).last = last := by
  unfold check_rain_forecast check_rain_body
  by_cases h1 : entityTruthy entity = true ∧ new ≠ some "on"
  · rw [if_pos h1]; exact ⟨rfl, rfl⟩
  · rw [if_neg h1]
    rcases scan_no_match now pts h with hs | ⟨e, hs⟩
    · norm_num at hs; simp [hs]
    · norm_num at hs; simp [hs]

/-- Witness for C3: a single point 35 minutes ahead with precipitation 1
yields no notification. -/
theorem no_rain_no_notification_witness :
    (check_rain_forecast cfgW (some 0) none none
        (.parsed [⟨some "2025-01-01T12:35:00Z", some 1⟩])
        (fun _ => some "on") (fun _ => .ok ()) 1735732800).sent = [] ∧
    (check_rain_forecast cfgW (some 0) none none
        (.parsed [⟨some "2025-01-01T12:35:00Z", some 1⟩])
        (fun _ => some "on") (fun _ => .ok ()) 1735732800).last = some 0 := by
  refine no_rain_no_notification cfgW (some 0) none none (fun _ => some "on")
    (fun _ => .ok ()) [⟨some "2025-01-01T12:35:00Z", some 1⟩] 1735732800 ?_
  intro p hp t ht
  simp only [List.mem_singleton] at hp
  subst hp
  have hv : parseDt ((⟨some "2025-01-01T12:35:00Z", some 1⟩ :
      ForecastPoint).datetime.getD "") = some 1735734900 := by decide
  rw [hv] at ht
  cases ht
  decide

/-! ## C4: doors closed, no notification -/

/-- Claim C4: when a qualifying rain point was found but no configured
opening sensor reports the open state `"on"`, the evaluation returns with
nothing sent, no error, and the cooldown field unchanged. -/
theorem doors_closed_no_notification (cfg : Config) (last : Option Int)
    (entity new : Option String) (getState : String → Option String)
    (send : String → Except String Unit) (pts : List ForecastPoint) (m now : Int)
    (h1 : ¬(entityTruthy entity = true ∧ new ≠ some "on"))
    (h3 : scanForecast now (now + 30 * 60) pts = .ok (true, m))
    (h4 : ∀ s ∈ cfg.door_window_sensors, ¬(getState s = some "on")) :
    check_rain_forecast cfg last entity new (.parsed pts) getState send now =
      ⟨last, [], none⟩ := by
  have hdo : doorsOpen getState cfg.door_window_sensors = false := by
    simp only [doorsOpen, List.any_eq_false, beq_iff_eq]
    exact h4
  unfold check_rain_forecast check_rain_body
  rw [if_neg h1]
  norm_num at h3
  simp [h3, hdo]

/-- Witness for C4: the five-minute rain point with the single door
reporting `"off"` produces no notification. -/
theorem doors_closed_no_notification_witness :
    check_rain_forecast cfgW none none none (.parsed ptsW)
        (fun _ => some "off") (fun _ => .ok ()) 1735732800 =
      ⟨none, [], none⟩ := by
  refine doors_closed_no_notification cfgW none none none (fun _ => some "off")
    (fun _ => .ok ()) ptsW 5 1735732800 (by simp [entityTruthy]) (by decide) ?_
  intro s hs
  simp

/-! ## C5: early exit on a sensor-closed transition -/

/-- Claim C5: when the invocation carries a truthy trigger entity whose new
state is not `"on"`, the routine returns immediately with nothing sent and
nothing changed, for every forecast fetch outcome, sensor reader and
sender — it never consults them; and when the invocation carries no
trigger entity (the periodic-timer path), the outcome does not depend on
`new` at all. -/
theorem sensor_closed_early_exit (cfg : Config) (last : Option Int)
    (entity : Option String) (now : Int) :
    (∀ new, entityTruthy entity = true → new ≠ some "on" →
      ∀ fetch getState send,
        check_rain_forecast cfg last entity new fetch getState send now =
          ⟨last, [], none⟩) ∧
    (entityTruthy entity = false →
      ∀ new₁ new₂ fetch getState send,
        check_rain_forecast cfg last entity new₁ fetch getState send now =
          check_rain_forecast cfg last entity new₂ fetch getState send now) := by
  constructor
  · intro new he hn fetch getState send
    unfold check_rain_forecast check_rain_body
    rw [if_pos ⟨he, hn⟩]
  · intro he new₁ new₂ fetch getState send
    unfold check_rain_forecast check_rain_body
    rw [if_neg (by simp [he]), if_neg (by simp [he])]

/-- Witness for C5: a trigger from the door sensor with new state
`"off"` exits before any work, even with a qualifying forecast, open
door and willing sender. -/
theorem sensor_closed_early_exit_witness :
    check_rain_forecast cfgW none (some "binary_sensor.door") (some "off")
        (.parsed ptsW) (fun _ => some "on") (fun _ => .ok ()) 1735732800 =
      ⟨none, [], none⟩ := by
  exact (sensor_closed_early_exit cfgW none (some "binary_sensor.door")
    1735732800).1 (some "off") (by decide) (by decide)
    (.parsed ptsW) (fun _ => some "on") (fun _ => .ok ())

/-! ## C6: the five-minute scenario -/

/-- Claim C6: forecast `[{"datetime": "2025-01-01T12:05:00Z",
"precipitation": 0.5}]`, `now` = 2025-01-01T12:00:00Z (epoch 1735732800),
one opening sensor `"on"`, no previous notification: exactly one
notification goes out, with `rain_minutes = 5` embedded in the message,
and the cooldown field becomes `now`.  (`half` is 1/2, i.e. the 0.5 of
the scenario, by `half_eq`.) -/
theorem scenario_rain_in_five_minutes :
    check_rain_forecast cfgW none none none (.parsed ptsW)
        (fun _ => some "on") (fun _ => .ok ()) 1735732800 =
      ⟨some 1735732800,
        [("notify/phone",
          "⚠️ Rain Warning: Rain expected in 5 minutes and doors are open!")],
        none⟩ ∧
    half = 1 / 2 := by
  exact ⟨by decide, half_eq⟩

/-! ## C7: missing configuration makes the component inert -/

/-- Claim C7: when any of the three required configuration values is falsy
(absent/empty nowcast sensor id, empty opening-sensor list, or empty
recipients list), `initialize` logs exactly one configuration error and
registers nothing: no state listeners and no periodic timer, so the
component never evaluates. -/
theorem missing_config_inert (cfg : Config) (h : configMissing cfg = true) :
    initialize_app cfg =
      ⟨["Error: Missing required configuration (nowcast_sensor, door_window_sensors, or persons)"],
        [], false⟩ ∧
    (initialize_app cfg).errors.length = 1 ∧
    (initialize_app cfg).listeners = [] ∧
    (initialize_app cfg).timerStarted = false := by
  simp [initialize_app, h]

/-- Witness for C7: a configuration with a nowcast sensor but no door
sensors is rejected with one error and no registrations. -/
theorem missing_config_inert_witness :
    initialize_app ⟨some "sensor.nowcast", [], [⟨some "phone"⟩]⟩ =
      ⟨["Error: Missing required configuration (nowcast_sensor, door_window_sensors, or persons)"],
        [], false⟩ := by
  exact (missing_config_inert ⟨some "sensor.nowcast", [], [⟨some "phone"⟩]⟩
    (by decide)).1

/-! ## C8: the routine boundary catches every exception -/

/-- Claim C8: `check_rain_forecast` is total over every input — including a
falsy forecast attribute, a malformed JSON payload, unparseable
datetimes and send failures — and its outcome is exactly determined by
the `try` body: a raised exception is caught at the boundary, logged as
`"Error in check_rain_forecast: "` plus the exception detail, and the
call returns normally with the cooldown field untouched; a normal body
return is passed through with no error logged.  No exception outcome
escapes the routine. -/
theorem routine_catches_all (cfg : Config) (last : Option Int)
    (entity new : Option String) (fetch : FetchResult)
    (getState : String → Option String) (send : String → Except String Unit)
    (now : Int) :
    (∀ msg sent,
      check_rain_body cfg last entity new fetch getState send now = .exn msg sent →
        check_rain_forecast cfg last entity new fetch getState send now =
          ⟨last, sent, some ("Error in check_rain_forecast: " ++ msg)⟩) ∧
    (∀ l sent,
      check_rain_body cfg last entity new fetch getState send now = .ok l sent →
        check_rain_forecast cfg last entity new fetch getState send now =
          ⟨l, sent, none⟩) := by
  constructor
  · intro msg sent hb
    unfold check_rain_forecast
    rw [hb]
  · intro l sent hb
    unfold check_rain_forecast
    rw [hb]

/-- Witness for C8: a malformed forecast JSON payload is caught and
logged with the decoder's message; nothing is sent, the cooldown field
survives. -/
theorem routine_catches_all_witness :
    check_rain_forecast cfgW (some 7) none none (.malformed "Expecting value")
        (fun _ => some "on") (fun _ => .ok ()) 1735732800 =
      ⟨some 7, [], some "Error in check_rain_forecast: Expecting value"⟩ := by
  exact (routine_catches_all cfgW (some 7) none none (.malformed "Expecting value")
    (fun _ => some "on") (fun _ => .ok ()) 1735732800).1 "Expecting value" [] rfl

/-! ## C9: a send failure leaves the cooldown unset -/

theorem dispatch_fail_eq (send : String → Except String Unit) (msg : String)
    (pre rest : List Person) (pf : Person) (e : String)
    (hpre : allSendsOk send pre) (hf : notifyFalsy pf = false)
    (hs : send (pf.notify.getD "") = .error e) :
    dispatchLoop send msg (pre ++ pf :: rest) = (successfulSends msg pre, some e) := by
  induction pre with
  | nil => simp [dispatchLoop, successfulSends, hf, hs]
  | cons p ps ih =>
    have ihr := ih (fun q hq hq2 => hpre q (List.mem_cons_of_mem p hq) hq2)
    by_cases hp : notifyFalsy p
    · simp [dispatchLoop, successfulSends, hp, ihr]
    · have hok := hpre p (List.mem_cons_self p ps) (by simpa using hp)
      simp [dispatchLoop, successfulSends, hp, hok, ihr]

/-- Claim C9: in a qualifying evaluation that passes the cooldown gate, if
the send to some recipient raises (all earlier sends succeeding), then
the messages already delivered to the earlier recipients stand, the
exception is caught and logged, and — because the assignment of line 170
only runs after the whole loop — the cooldown field keeps its pre-call
value, so a later qualifying evaluation whose sends succeed dispatches to
everyone. -/
theorem send_failure_no_cooldown (cfg : Config) (last : Option Int)
    (entity new : Option String) (getState : String → Option String)
    (send : String → Except String Unit) (pts : List ForecastPoint)
    (m now : Int) (pre rest : List Person) (pf : Person) (e : String)
    (h1 : ¬(entityTruthy entity = true ∧ new ≠ some "on"))
    (h3 : scanForecast now (now + 30 * 60) pts = .ok (true, m))
    (h4 : doorsOpen getState cfg.door_window_sensors = true)
    (hcp : cooldownPassed last now = true)
    (hpersons : cfg.persons = pre ++ pf :: rest)
    (hpre : allSendsOk send pre) (hf : notifyFalsy pf = false)
    (hs : send (pf.notify.getD "") = .error e) :
    check_rain_forecast cfg last entity new (.parsed pts) getState send now =
      ⟨last, successfulSends (notifyMessage m) pre,
        some ("Error in check_rain_forecast: " ++ e)⟩ ∧
    (∀ now' m' send', cooldownPassed last now' = true →
      scanForecast now' (now' + 30 * 60) pts = .ok (true, m') →
      allSendsOk send' cfg.persons →
        check_rain_forecast cfg last entity new (.parsed pts) getState send' now' =
          ⟨some now', successfulSends (notifyMessage m') cfg.persons, none⟩) := by
  constructor
  · rw [check_qualifying_eq cfg last entity new getState send pts m now h1 h3 h4,
      if_pos hcp, hpersons,
      dispatch_fail_eq send (notifyMessage m) pre rest pf e hpre hf hs]
  · intro now' m' send' hcp' h3' hall'
    rw [check_qualifying_eq cfg last entity new getState send' pts m' now' h1 h3' h4,
      if_pos hcp', dispatch_all_ok send' _ _ hall']

/-- Witness for C9: two recipients, the first send succeeds, the second
raises; the first message stands, the cooldown field stays `none`, and a
retry with a working sender reaches both. -/
theorem send_failure_no_cooldown_witness :
    check_rain_forecast ⟨some "sensor.nowcast", ["binary_sensor.door"],
        [⟨some "a"⟩, ⟨some "b"⟩]⟩ none none none (.parsed ptsW)
        (fun _ => some "on")
        (fun s => if s == "a" then .ok () else .error "Connection refused")
        1735732800 =
      ⟨none, [("notify/a", notifyMessage 5)],
        some "Error in check_rain_forecast: Connection refused"⟩ := by
  exact (send_failure_no_cooldown ⟨some "sensor.nowcast", ["binary_sensor.door"],
      [⟨some "a"⟩, ⟨some "b"⟩]⟩ none none none (fun _ => some "on")
      (fun s => if s == "a" then .ok () else .error "Connection refused")
      ptsW 5 1735732800 [⟨some "a"⟩] [] ⟨some "b"⟩ "Connection refused"
      (by simp [entityTruthy]) (by decide) (by decide) (by decide) rfl
      (fun q hq hq2 => by
        simp only [List.mem_singleton] at hq
        subst hq
        rfl)
      (by decide) rfl).1

/-! ## C10: "Z" suffix and explicit "+00:00" offset parse alike -/

theorem replaceZchars_not_mem (l : List Char) (h : 'Z' ∉ l) :
    replaceZchars l = l := by
  induction l with
  | nil => rfl
  | cons c cs ih =>
    have hcz : c ≠ 'Z' := by
      intro hc; subst hc; exact h (List.mem_cons_self _ _)
    have hcs : 'Z' ∉ cs := fun hm => h (List.mem_cons_of_mem c hm)
    rw [replaceZchars, if_neg hcz, ih hcs]

theorem replaceZchars_append (l r : List Char) :
    replaceZchars (l ++ r) = replaceZchars l ++ replaceZchars r := by
  induction l with
  | nil => rfl
  | cons c cs ih =>
    simp only [List.cons_append, replaceZchars]
    by_cases hc : c = 'Z' <;> simp [hc, ih]

/-- Claim C10: for any datetime body (a string not containing `'Z'`, as no
ISO-8601 date-time body does), the source's parse of the body with a
literal `"Z"` UTC suffix — `fromisoformat` after
`replace("Z", "+00:00")` — yields the same instant as the parse of the
body with an explicit `"+00:00"` offset. -/
theorem z_suffix_same_instant (d : String) (h : 'Z' ∉ d.data) :
    parseDt (d ++ "Z") = parseDt (d ++ "+00:00") := by
  have key : replaceZchars (d ++ "Z").data = replaceZchars (d ++ "+00:00").data := by
    rw [String.data_append, String.data_append, replaceZchars_append,
      replaceZchars_append, replaceZchars_not_mem d.data h]
    rfl
  unfold parseDt
  rw [show (replaceZ (d ++ "Z")).data = replaceZchars (d ++ "Z").data from rfl,
    show (replaceZ (d ++ "+00:00")).data = replaceZchars (d ++ "+00:00").data from rfl,
    key]

/-- Witness for C10: the scenario timestamp written both ways parses to
the same instant. -/
theorem z_suffix_same_instant_witness :
    parseDt ("2025-01-01T12:05:00" ++ "Z") =
      parseDt ("2025-01-01T12:05:00" ++ "+00:00") := by
  exact z_suffix_same_instant "2025-01-01T12:05:00" (by decide)
